import Mathlib

set_option maxHeartbeats 1000000

/-!
Shallow embedding of `cartographer_grpc/mapping/trajectory_builder_stub.cc`.

The adapter (`TrajectoryBuilderStub`) multiplexes sensor samples over four
lazily-opened outbound gRPC write streams and optionally consumes an inbound
result stream on a background thread.  The transport layer (gRPC) is an
external collaborator; it is modelled by the `Transport` oracle, which tells
whether stub/stream creation yields a usable (non-null) handle and whether the
`WritesDone` / `Finish` acknowledgments succeed.  Fallible operations return an
`Outcome`, which is either a normal result or a fatal `CHECK` abort, and in
both cases carries the ordered trace of transport operations performed, so that
temporal claims (join-before-finalize, open-exactly-once) can be stated.
-/

/-- The four sensor-data kinds routed by the adapter, one outbound stream each. -/
inductive SensorKind : Type
  | rangefinder
  | imu
  | odometry
  | fixedFrame
deriving DecidableEq, Repr

/-- Opaque payload of `cartographer::sensor::TimedPointCloudData`. -/
structure TimedPointCloudData where
  rep : Int
deriving DecidableEq, Repr

/-- Opaque payload of `cartographer::sensor::ImuData`. -/
structure ImuData where
  rep : Int
deriving DecidableEq, Repr

/-- Opaque payload of `cartographer::sensor::OdometryData`. -/
structure OdometryData where
  rep : Int
deriving DecidableEq, Repr

/-- Opaque payload of `cartographer::sensor::FixedFramePoseData`. -/
structure FixedFramePoseData where
  rep : Int
deriving DecidableEq, Repr

/-- One sensor sample, one of the four variant kinds accepted by the four
`AddSensorData` overloads. -/
inductive SensorSample : Type
  | rangefinder (d : TimedPointCloudData)
  | imu (d : ImuData)
  | odometry (d : OdometryData)
  | fixedFrame (d : FixedFramePoseData)
deriving DecidableEq, Repr

/-- The kind of a sample, i.e. which overload / which stream it is routed to. -/
def SensorSample.kind : SensorSample → SensorKind
  | .rangefinder _ => .rangefinder
  | .imu _ => .imu
  | .odometry _ => .odometry
  | .fixedFrame _ => .fixedFrame

/-- Result of the opaque wire-encoding boundary `cartographer::sensor::ToProto`.
Encoding is treated as an injective black box, so the encoded form is modelled
as a wrapper remembering the sample it encodes. -/
structure EncodedProto where
  decoded : SensorSample
deriving DecidableEq, Repr

/-- Models `cartographer::sensor::ToProto` (all four overloads): the opaque,
injective serialization of one sample. -/
def sensorToProto (sample : SensorSample) : EncodedProto :=
  { decoded := sample }

/-- `proto::SensorMetadata`: the routing tag attached to every outbound message
(`CreateSensorMetadata`). -/
structure SensorMetadata where
  sensor_id : String
  trajectory_id : Int
deriving DecidableEq, Repr

/-- One outbound request message (`AddRangefinderDataRequest` etc.): the
metadata plus the encoded sample. -/
structure AddDataRequest where
  sensor_metadata : SensorMetadata
  payload : EncodedProto
deriving DecidableEq, Repr

/-- Observable transport operations performed by the adapter, in order. -/
inductive Event : Type
  | openStream (k : SensorKind)
  | write (k : SensorKind) (request : AddDataRequest)
  | joinThread
  | writesDone (k : SensorKind)
  | finish (k : SensorKind)
  | openResultStream
  | spawnReaderThread
deriving DecidableEq, Repr

/-- State of one outbound stream (`struct ...Writer` member): whether
`client_writer` is non-null, and the messages written onto the stream so far,
in order. -/
structure StreamWriter where
  client_writer : Bool
  written : List AddDataRequest
deriving DecidableEq, Repr

/-- Oracle for the external gRPC collaborator: whether handle creation and the
finalize acknowledgments succeed. -/
structure Transport where
  stubOk : Bool
  openOk : SensorKind → Bool
  writesDoneOk : SensorKind → Bool
  finishOk : SensorKind → Bool

/-- The adapter state: the member variables of `TrajectoryBuilderStub`. -/
structure StubState where
  trajectory_id : Int
  stub : Bool
  rangefinder_writer : StreamWriter
  imu_writer : StreamWriter
  odometry_writer : StreamWriter
  fixed_frame_writer : StreamWriter
  reader_open : Bool
  reader_thread : Bool
deriving DecidableEq, Repr

/-- The writer member selected by kind. -/
def StubState.writer (s : StubState) : SensorKind → StreamWriter
  | .rangefinder => s.rangefinder_writer
  | .imu => s.imu_writer
  | .odometry => s.odometry_writer
  | .fixedFrame => s.fixed_frame_writer

/-- Replace the writer member selected by kind. -/
def StubState.setWriter (s : StubState) : SensorKind → StreamWriter → StubState
  | .rangefinder, w => { s with rangefinder_writer := w }
  | .imu, w => { s with imu_writer := w }
  | .odometry, w => { s with odometry_writer := w }
  | .fixedFrame, w => { s with fixed_frame_writer := w }

/-- Result of an adapter operation: a value or a fatal `CHECK` abort, plus the
trace of transport events it performed. -/
inductive Outcome (α : Type) : Type
  | ok (value : α) (trace : List Event)
  | fatal (trace : List Event)
deriving DecidableEq, Repr

/-- Sequencing: traces accumulate; a fatal abort stops the program. -/
def Outcome.andThen {α β : Type} : Outcome α → (α → Outcome β) → Outcome β
  | .ok a tr, f =>
    match f a with
    | .ok b tr2 => .ok b (tr ++ tr2)
    | .fatal tr2 => .fatal (tr ++ tr2)
  | .fatal tr, _ => .fatal tr

/-- The trace of events performed, whether or not the operation aborted. -/
def Outcome.trace {α : Type} : Outcome α → List Event
  | .ok _ tr => tr
  | .fatal tr => tr

/-- `TrajectoryBuilderStub::CreateSensorMetadata` (lines 127-133). -/
def TrajectoryBuilderStub.CreateSensorMetadata (s : StubState)
    (sensor_id : String) : SensorMetadata :=
  { sensor_id := sensor_id, trajectory_id := s.trajectory_id }

/-- The four `TrajectoryBuilderStub::AddSensorData` overloads (lines 68-125),
one branch per C++ overload: open the kind's stream if its `client_writer` is
null (`CHECK`-fatal when the transport yields no usable handle), then build the
request `{sensor_metadata, ToProto(sample)}` and `Write` it. -/
def TrajectoryBuilderStub.AddSensorData (env : Transport) (s : StubState)
    (sensor_id : String) : SensorSample → Outcome StubState
  | SensorSample.rangefinder timed_point_cloud_data =>
    let step :=
      if !s.rangefinder_writer.client_writer then
        ({ s with rangefinder_writer :=
             { s.rangefinder_writer with
                 client_writer := env.openOk SensorKind.rangefinder } },
         [Event.openStream SensorKind.rangefinder])
      else (s, ([] : List Event))
    let s1 := step.1
    if !s1.rangefinder_writer.client_writer then Outcome.fatal step.2
    else
      let request : AddDataRequest :=
        { sensor_metadata := TrajectoryBuilderStub.CreateSensorMetadata s1 sensor_id
        , payload := sensorToProto (SensorSample.rangefinder timed_point_cloud_data) }
      Outcome.ok
        { s1 with rangefinder_writer :=
            { s1.rangefinder_writer with
                written := s1.rangefinder_writer.written ++ [request] } }
        (step.2 ++ [Event.write SensorKind.rangefinder request])
  | SensorSample.imu imu_data =>
    let step :=
      if !s.imu_writer.client_writer then
        ({ s with imu_writer :=
             { s.imu_writer with client_writer := env.openOk SensorKind.imu } },
         [Event.openStream SensorKind.imu])
      else (s, ([] : List Event))
    let s1 := step.1
    if !s1.imu_writer.client_writer then Outcome.fatal step.2
    else
      let request : AddDataRequest :=
        { sensor_metadata := TrajectoryBuilderStub.CreateSensorMetadata s1 sensor_id
        , payload := sensorToProto (SensorSample.imu imu_data) }
      Outcome.ok
        { s1 with imu_writer :=
            { s1.imu_writer with written := s1.imu_writer.written ++ [request] } }
        (step.2 ++ [Event.write SensorKind.imu request])
  | SensorSample.odometry odometry_data =>
    let step :=
      if !s.odometry_writer.client_writer then
        ({ s with odometry_writer :=
             { s.odometry_writer with
                 client_writer := env.openOk SensorKind.odometry } },
         [Event.openStream SensorKind.odometry])
      else (s, ([] : List Event))
    let s1 := step.1
    if !s1.odometry_writer.client_writer then Outcome.fatal step.2
    else
      let request : AddDataRequest :=
        { sensor_metadata := TrajectoryBuilderStub.CreateSensorMetadata s1 sensor_id
        , payload := sensorToProto (SensorSample.odometry odometry_data) }
      Outcome.ok
        { s1 with odometry_writer :=
            { s1.odometry_writer with
                written := s1.odometry_writer.written ++ [request] } }
        (step.2 ++ [Event.write SensorKind.odometry request])
  | SensorSample.fixedFrame fixed_frame_pose =>
    let step :=
      if !s.fixed_frame_writer.client_writer then
        ({ s with fixed_frame_writer :=
             { s.fixed_frame_writer with
                 client_writer := env.openOk SensorKind.fixedFrame } },
         [Event.openStream SensorKind.fixedFrame])
      else (s, ([] : List Event))
    let s1 := step.1
    if !s1.fixed_frame_writer.client_writer then Outcome.fatal step.2
    else
      let request : AddDataRequest :=
        { sensor_metadata := TrajectoryBuilderStub.CreateSensorMetadata s1 sensor_id
        , payload := sensorToProto (SensorSample.fixedFrame fixed_frame_pose) }
      Outcome.ok
        { s1 with fixed_frame_writer :=
            { s1.fixed_frame_writer with
                written := s1.fixed_frame_writer.written ++ [request] } }
        (step.2 ++ [Event.write SensorKind.fixedFrame request])

/-- Kind-generic form of `AddSensorData`, identical to each overload once the
sample's kind is fixed (proved in `AddSensorData_eq_addSensorDataG`). -/
def addSensorDataG (env : Transport) (s : StubState) (sensor_id : String)
    (sample : SensorSample) : Outcome StubState :=
  let k := sample.kind
  let step :=
    if !(s.writer k).client_writer then
      (s.setWriter k { s.writer k with client_writer := env.openOk k },
       [Event.openStream k])
    else (s, ([] : List Event))
  let s1 := step.1
  if !(s1.writer k).client_writer then Outcome.fatal step.2
  else
    let request : AddDataRequest :=
      { sensor_metadata := TrajectoryBuilderStub.CreateSensorMetadata s1 sensor_id
      , payload := sensorToProto sample }
    Outcome.ok
      (s1.setWriter k
        { s1.writer k with written := (s1.writer k).written ++ [request] })
      (step.2 ++ [Event.write k request])

/-- The member state produced by a successful constructor before the optional
result-reader setup. -/
def TrajectoryBuilderStub.initialState (trajectory_id : Int) : StubState :=
  { trajectory_id := trajectory_id
  , stub := true
  , rangefinder_writer := { client_writer := false, written := [] }
  , imu_writer := { client_writer := false, written := [] }
  , odometry_writer := { client_writer := false, written := [] }
  , fixed_frame_writer := { client_writer := false, written := [] }
  , reader_open := false
  , reader_thread := false }

/-- `TrajectoryBuilderStub::TrajectoryBuilderStub` (lines 25-44): create the
service stub (`CHECK`-fatal when unusable); when a result callback is supplied,
open the inbound result stream and spawn the reader thread before returning. -/
def TrajectoryBuilderStub.construct (env : Transport) (trajectory_id : Int)
    (has_callback : Bool) : Outcome StubState :=
  if env.stubOk then
    let s := TrajectoryBuilderStub.initialState trajectory_id
    if has_callback then
      Outcome.ok { s with reader_open := true, reader_thread := true }
        [Event.openResultStream, Event.spawnReaderThread]
    else Outcome.ok s []
  else Outcome.fatal []

/-- One destructor block `if (x_writer_.client_writer) { CHECK(WritesDone());
CHECK(Finish().ok()); }`. -/
def finalizeWriter (env : Transport) (k : SensorKind) (w : StreamWriter) :
    Outcome Unit :=
  if w.client_writer then
    if env.writesDoneOk k then
      if env.finishOk k then
        Outcome.ok () [Event.writesDone k, Event.finish k]
      else Outcome.fatal [Event.writesDone k, Event.finish k]
    else Outcome.fatal [Event.writesDone k]
  else Outcome.ok () []

/-- The destructor's four finalize blocks, in member order (rangefinder, imu,
odometry, fixed-frame). -/
def finalizeAllWriters (env : Transport) (s : StubState) : Outcome Unit :=
  (finalizeWriter env SensorKind.rangefinder s.rangefinder_writer).andThen
    (fun _ =>
      (finalizeWriter env SensorKind.imu s.imu_writer).andThen
        (fun _ =>
          (finalizeWriter env SensorKind.odometry s.odometry_writer).andThen
            (fun _ =>
              finalizeWriter env SensorKind.fixedFrame s.fixed_frame_writer)))

/-- `TrajectoryBuilderStub::~TrajectoryBuilderStub` (lines 46-66): join the
reader thread if one was spawned, then finalize the four outbound writers in
member order. -/
def TrajectoryBuilderStub.destruct (env : Transport) (s : StubState) :
    Outcome Unit :=
  (Outcome.ok () (if s.reader_thread then [Event.joinThread] else [])).andThen
    (fun _ => finalizeAllWriters env s)

/-- The trace one destructor finalize block leaves when both acknowledgments
succeed: end-of-writes then completion, or nothing when the handle never
opened. -/
def finalizeTrace (k : SensorKind) (w : StreamWriter) : List Event :=
  if w.client_writer then [Event.writesDone k, Event.finish k] else []

/-- A client call sequence: run the `AddSensorData` overloads one after the
other on the adapter state (each call dispatched by its sample's kind). -/
def runCalls (env : Transport) :
    StubState → List (String × SensorSample) → Outcome StubState
  | s, [] => Outcome.ok s []
  | s, (sensor_id, sample) :: rest =>
    (TrajectoryBuilderStub.AddSensorData env s sensor_id sample).andThen
      (fun s2 => runCalls env s2 rest)

/-! ### The inbound result stream and the reader thread -/

/-- Opaque wire form of a `transform::proto::Rigid3d` pose. -/
structure Rigid3dProto where
  rep : Int
deriving DecidableEq, Repr

/-- Opaque wire form of `sensor::proto::RangeData`. -/
structure RangeDataProto where
  rep : Int
deriving DecidableEq, Repr

/-- Decoded `cartographer::common::Time`, produced by `FromUniversal`. -/
structure Time where
  universal : Int
deriving DecidableEq, Repr

/-- Decoded `cartographer::transform::Rigid3d`, produced by `ToRigid3`. -/
structure Rigid3d where
  proto : Rigid3dProto
deriving DecidableEq, Repr

/-- Decoded `cartographer::sensor::RangeData`, produced by `FromProto`. -/
structure RangeData where
  proto : RangeDataProto
deriving DecidableEq, Repr

/-- Models `cartographer::common::FromUniversal`: opaque decode of a
timestamp. -/
def FromUniversal (timestamp : Int) : Time :=
  { universal := timestamp }

/-- Models `cartographer::transform::ToRigid3`: opaque decode of a pose. -/
def ToRigid3 (p : Rigid3dProto) : Rigid3d :=
  { proto := p }

/-- Models `cartographer::sensor::FromProto`: opaque decode of range data. -/
def RangeDataFromProto (p : RangeDataProto) : RangeData :=
  { proto := p }

/-- Wire form of the optional `proto::NodeId` submessage. -/
structure NodeIdProto where
  trajectory_id : Int
  node_index : Int
deriving DecidableEq, Repr

/-- Decoded `cartographer::mapping::NodeId`. -/
structure NodeId where
  trajectory_id : Int
  node_index : Int
deriving DecidableEq, Repr

/-- One inbound `proto::ReceiveLocalSlamResultsResponse` message; `node_id` is
`some` exactly when `has_node_id()` holds on the wire message. -/
structure ReceiveLocalSlamResultsResponse where
  trajectory_id : Int
  timestamp : Int
  local_pose : Rigid3dProto
  range_data : RangeDataProto
  node_id : Option NodeIdProto
deriving DecidableEq, Repr

/-- The decoded argument tuple of one `LocalSlamResultCallback` invocation. -/
structure LocalSlamResult where
  trajectory_id : Int
  time : Time
  local_pose : Rigid3d
  range_data : RangeData
  node_id : Option NodeId
deriving DecidableEq, Repr

/-- How the inbound stream ended: the remote closed it cleanly or the
transport faulted mid-read.  `ClientReader::Read` returns `false` either way,
so the reader code cannot observe which one happened. -/
inductive StreamEnd : Type
  | clean
  | transportFault
deriving DecidableEq, Repr

/-- The inbound result stream as delivered by the transport: the messages
`Read` yields before returning `false`, why it ended, and the status the
final `Finish()` call would report. -/
structure InboundStream where
  messages : List ReceiveLocalSlamResultsResponse
  ending : StreamEnd
  finish_ok : Bool
deriving DecidableEq, Repr

/-- Observable actions of the reader thread, in order. -/
inductive ReaderEvent : Type
  | callbackInvoked (result : LocalSlamResult)
  | finishInbound (ok : Bool)
deriving DecidableEq, Repr

/-- The `while (client_reader->Read(&response))` loop body of
`RunLocalSlamResultReader` (lines 139-156): decode each message and invoke the
callback with the decoded fields, in arrival order. -/
def readLoop : List ReceiveLocalSlamResultsResponse → List ReaderEvent
  | [] => []
  | response :: rest =>
    let trajectory_id := response.trajectory_id
    let time := FromUniversal response.timestamp
    let local_pose := ToRigid3 response.local_pose
    let range_data := RangeDataFromProto response.range_data
    let node_id : Option NodeId :=
      match response.node_id with
      | some n => some { trajectory_id := n.trajectory_id, node_index := n.node_index }
      | none => none
    ReaderEvent.callbackInvoked
      { trajectory_id := trajectory_id
      , time := time
      , local_pose := local_pose
      , range_data := range_data
      , node_id := node_id } :: readLoop rest

/-- `TrajectoryBuilderStub::RunLocalSlamResultReader` (lines 135-158): run the
read loop until the stream ends, then call `Finish()` once, discarding its
status.  The `ending` cause is never consulted: `Read` hides it. -/
def RunLocalSlamResultReader (stream : InboundStream) : List ReaderEvent :=
  readLoop stream.messages ++ [ReaderEvent.finishInbound stream.finish_ok]

/-- Whether a reader event is a callback invocation. -/
def isCallbackEvent : ReaderEvent → Bool
  | .callbackInvoked _ => true
  | .finishInbound _ => false

/-- Whether a reader event is the final `Finish()` on the inbound session. -/
def isFinishEvent : ReaderEvent → Bool
  | .callbackInvoked _ => false
  | .finishInbound _ => true

/-- The decoded callback argument built from one inbound message by the loop
body of `RunLocalSlamResultReader`; `node_id` is decoded only when the wire
message carries one. -/
def decodeResponse (response : ReceiveLocalSlamResultsResponse) :
    LocalSlamResult :=
  { trajectory_id := response.trajectory_id
  , time := FromUniversal response.timestamp
  , local_pose := ToRigid3 response.local_pose
  , range_data := RangeDataFromProto response.range_data
  , node_id :=
      match response.node_id with
      | some n => some { trajectory_id := n.trajectory_id
                       , node_index := n.node_index }
      | none => none }

/-- Number of occurrences of one element in a list. -/
def countOcc {α : Type} [DecidableEq α] (tr : List α) (e : α) : Nat :=
  tr.countP (fun x => decide (x = e))

/-- The outbound request built by one `AddSensorData` call: the caller's
sensor id, the adapter's trajectory id, and the encoded sample. -/
def requestFor (trajectory_id : Int) (sensor_id : String)
    (sample : SensorSample) : AddDataRequest :=
  { sensor_metadata := { sensor_id := sensor_id, trajectory_id := trajectory_id }
  , payload := sensorToProto sample }

/-- A transport on which every operation succeeds. -/
def envAllOk : Transport :=
  { stubOk := true, openOk := fun _ => true
  , writesDoneOk := fun _ => true, finishOk := fun _ => true }

/-- A transport whose `Finish()` acknowledgments all fail. -/
def envFinishFails : Transport :=
  { stubOk := true, openOk := fun _ => true
  , writesDoneOk := fun _ => true, finishOk := fun _ => false }

/-- A transport on which stub creation yields no usable handle. -/
def envNoStub : Transport :=
  { stubOk := false, openOk := fun _ => true
  , writesDoneOk := fun _ => true, finishOk := fun _ => true }

/-- A transport on which opening an outbound stream yields no usable handle. -/
def envOpenFails : Transport :=
  { stubOk := true, openOk := fun _ => false
  , writesDoneOk := fun _ => true, finishOk := fun _ => true }

/-- A concrete call sequence: two rangefinder samples around one imu sample. -/
def demoCalls : List (String × SensorSample) :=
  [("laser", SensorSample.rangefinder { rep := 1 }),
   ("imu0", SensorSample.imu { rep := 2 }),
   ("laser", SensorSample.rangefinder { rep := 3 })]

/-- A concrete adapter state with the imu stream open and a spawned reader
thread. -/
def demoOpenState : StubState :=
  { TrajectoryBuilderStub.initialState 5 with
      imu_writer := { client_writer := true, written := [] }
    , reader_thread := true }

/-- The state after one imu `AddSensorData` call on a fresh adapter with
trajectory id 5. -/
def demoAddResult : StubState :=
  { TrajectoryBuilderStub.initialState 5 with
      imu_writer :=
        { client_writer := true
        , written := [{ sensor_metadata :=
                          { sensor_id := "imu0", trajectory_id := 5 }
                      , payload := sensorToProto (SensorSample.imu { rep := 3 }) }] } }

/-- The trace of that one imu `AddSensorData` call. -/
def demoAddTrace : List Event :=
  [Event.openStream SensorKind.imu,
   Event.write SensorKind.imu
     { sensor_metadata := { sensor_id := "imu0", trajectory_id := 5 }
     , payload := sensorToProto (SensorSample.imu { rep := 3 }) }]

/-! ### Helper lemmas about the state and trace combinators -/

@[simp]
theorem countOcc_nil {α : Type} [DecidableEq α] (e : α) :
    countOcc ([] : List α) e = 0 := rfl

@[simp]
theorem countOcc_cons {α : Type} [DecidableEq α] (x : α) (tr : List α) (e : α) :
    countOcc (x :: tr) e = countOcc tr e + (if x = e then 1 else 0) := by
  simp [countOcc, List.countP_cons]

@[simp]
theorem countOcc_append {α : Type} [DecidableEq α] (l1 l2 : List α) (e : α) :
    countOcc (l1 ++ l2) e = countOcc l1 e + countOcc l2 e := by
  simp [countOcc, List.countP_append]

@[simp]
theorem writer_setWriter_self (s : StubState) (k : SensorKind) (w : StreamWriter) :
    (s.setWriter k w).writer k = w := by
  cases k <;> rfl

theorem writer_setWriter_other (s : StubState) (k j : SensorKind)
    (w : StreamWriter) (h : j ≠ k) : (s.setWriter k w).writer j = s.writer j := by
  cases k <;> cases j <;> first | rfl | exact absurd rfl h

@[simp]
theorem setWriter_setWriter (s : StubState) (k : SensorKind)
    (w1 w2 : StreamWriter) : (s.setWriter k w1).setWriter k w2 = s.setWriter k w2 := by
  cases k <;> rfl

@[simp]
theorem trajectory_setWriter (s : StubState) (k : SensorKind) (w : StreamWriter) :
    (s.setWriter k w).trajectory_id = s.trajectory_id := by
  cases k <;> rfl

@[simp]
theorem stub_setWriter (s : StubState) (k : SensorKind) (w : StreamWriter) :
    (s.setWriter k w).stub = s.stub := by
  cases k <;> rfl

@[simp]
theorem reader_open_setWriter (s : StubState) (k : SensorKind) (w : StreamWriter) :
    (s.setWriter k w).reader_open = s.reader_open := by
  cases k <;> rfl

@[simp]
theorem reader_thread_setWriter (s : StubState) (k : SensorKind) (w : StreamWriter) :
    (s.setWriter k w).reader_thread = s.reader_thread := by
  cases k <;> rfl

@[simp]
theorem andThen_fatal {α β : Type} (tr : List Event) (f : α → Outcome β) :
    (Outcome.fatal tr).andThen f = Outcome.fatal tr := rfl

theorem andThen_ok_ok {α β : Type} {f : α → Outcome β} {a : α} {b : β}
    {tr tr2 : List Event} (h : f a = Outcome.ok b tr2) :
    (Outcome.ok a tr).andThen f = Outcome.ok b (tr ++ tr2) := by
  simp [Outcome.andThen, h]

theorem andThen_ok_fatal {α β : Type} {f : α → Outcome β} {a : α}
    {tr tr2 : List Event} (h : f a = Outcome.fatal tr2) :
    (Outcome.ok a tr).andThen f = Outcome.fatal (tr ++ tr2) := by
  simp [Outcome.andThen, h]

theorem trace_andThen_ok {α β : Type} (a : α) (tr : List Event)
    (f : α → Outcome β) :
    ((Outcome.ok a tr).andThen f).trace = tr ++ (f a).trace := by
  cases h : f a <;> simp [Outcome.andThen, h, Outcome.trace]

/-- Each of the four `AddSensorData` overloads coincides with the kind-generic
form. -/
theorem AddSensorData_eq_addSensorDataG (env : Transport) (s : StubState)
    (sensor_id : String) (sample : SensorSample) :
    TrajectoryBuilderStub.AddSensorData env s sensor_id sample =
      addSensorDataG env s sensor_id sample := by
  cases sample <;> rfl

theorem addSensorDataG_already_open (env : Transport) (s : StubState)
    (sensor_id : String) (sample : SensorSample)
    (h : (s.writer sample.kind).client_writer = true) :
    addSensorDataG env s sensor_id sample =
      Outcome.ok
        (s.setWriter sample.kind
          { s.writer sample.kind with
              written := (s.writer sample.kind).written ++
                [requestFor s.trajectory_id sensor_id sample] })
        [Event.write sample.kind (requestFor s.trajectory_id sensor_id sample)] := by
  simp [addSensorDataG, h, requestFor, TrajectoryBuilderStub.CreateSensorMetadata]

theorem addSensorDataG_first_open (env : Transport) (s : StubState)
    (sensor_id : String) (sample : SensorSample)
    (hclosed : (s.writer sample.kind).client_writer = false)
    (hopen : env.openOk sample.kind = true) :
    addSensorDataG env s sensor_id sample =
      Outcome.ok
        (s.setWriter sample.kind
          { client_writer := true
          , written := (s.writer sample.kind).written ++
              [requestFor s.trajectory_id sensor_id sample] })
        [Event.openStream sample.kind,
         Event.write sample.kind (requestFor s.trajectory_id sensor_id sample)] := by
  simp [addSensorDataG, hclosed, hopen, requestFor,
    TrajectoryBuilderStub.CreateSensorMetadata]

theorem addSensorDataG_open_failed (env : Transport) (s : StubState)
    (sensor_id : String) (sample : SensorSample)
    (hclosed : (s.writer sample.kind).client_writer = false)
    (hopen : env.openOk sample.kind = false) :
    addSensorDataG env s sensor_id sample =
      Outcome.fatal [Event.openStream sample.kind] := by
  simp [addSensorDataG, hclosed, hopen]

/-- Core invariant of the sensor router: when the transport hands out usable
stream handles, any call sequence succeeds; the trajectory identity, stub and
reader members are untouched; each kind's stream is open exactly when a call
of that kind occurred; the messages on each kind's stream are exactly the
requests of that kind's calls, in order, tagged with the adapter's trajectory
id; and each kind's stream is opened exactly once if used, never if already
open. -/
theorem runCalls_ok (env : Transport) (hopen : ∀ k, env.openOk k = true)
    (cs : List (String × SensorSample)) :
    ∀ s : StubState,
      ∃ s2 tr, runCalls env s cs = Outcome.ok s2 tr ∧
        s2.trajectory_id = s.trajectory_id ∧
        s2.stub = s.stub ∧
        s2.reader_open = s.reader_open ∧
        s2.reader_thread = s.reader_thread ∧
        (∀ k, (s2.writer k).client_writer =
          ((s.writer k).client_writer ||
            cs.any (fun c => decide (c.2.kind = k)))) ∧
        (∀ k, (s2.writer k).written = (s.writer k).written ++
          (cs.filter (fun c => decide (c.2.kind = k))).map
            (fun c => requestFor s.trajectory_id c.1 c.2)) ∧
        (∀ k, countOcc tr (Event.openStream k) =
          if (s.writer k).client_writer then 0
          else if cs.any (fun c => decide (c.2.kind = k)) then 1 else 0) := by
  induction cs with
  | nil =>
    intro s
    refine ⟨s, [], rfl, rfl, rfl, rfl, rfl, fun k => by simp,
      fun k => by simp, fun k => by simp⟩
  | cons c rest ih =>
    obtain ⟨sid, sample⟩ := c
    intro s
    by_cases hw : (s.writer sample.kind).client_writer = true
    · obtain ⟨s2, tr2, hrun, htraj, hstub, hro, hrt, hflag, hwrit, hcount⟩ :=
        ih (s.setWriter sample.kind
          { s.writer sample.kind with
              written := (s.writer sample.kind).written ++
                [requestFor s.trajectory_id sid sample] })
      refine ⟨s2,
        Event.write sample.kind (requestFor s.trajectory_id sid sample) :: tr2,
        ?_, ?_, ?_, ?_, ?_, ?_, ?_, ?_⟩
      · calc runCalls env s ((sid, sample) :: rest)
            = (TrajectoryBuilderStub.AddSensorData env s sid sample).andThen
                (fun x => runCalls env x rest) := rfl
          _ = Outcome.ok s2
                ([Event.write sample.kind (requestFor s.trajectory_id sid sample)]
                  ++ tr2) := by
              rw [AddSensorData_eq_addSensorDataG,
                addSensorDataG_already_open env s sid sample hw]
              exact andThen_ok_ok hrun
          _ = _ := by rw [List.singleton_append]
      · simpa using htraj
      · simpa using hstub
      · simpa using hro
      · simpa using hrt
      · intro k
        rw [hflag k]
        by_cases hk : k = sample.kind
        · subst hk; simp [hw]
        · rw [writer_setWriter_other s sample.kind k _ hk]
          have hk2 : ¬ (sample.kind = k) := fun h => hk h.symm
          simp [List.any_cons, hk2]
      · intro k
        rw [hwrit k]
        by_cases hk : k = sample.kind
        · subst hk
          simp [List.filter_cons, List.append_assoc]
        · rw [writer_setWriter_other s sample.kind k _ hk]
          have hk2 : ¬ (sample.kind = k) := fun h => hk h.symm
          simp [List.filter_cons, hk2]
      · intro k
        rw [countOcc_cons, hcount k]
        by_cases hk : k = sample.kind
        · subst hk; simp [hw]
        · have hk2 : ¬ (sample.kind = k) := fun h => hk h.symm
          rw [writer_setWriter_other s sample.kind k _ hk, List.any_cons,
            show decide ((sid, sample).2.kind = k) = false from decide_eq_false hk2,
            Bool.false_or]
          simp [hk2]
    · have hclosed : (s.writer sample.kind).client_writer = false := by
        simpa using hw
      obtain ⟨s2, tr2, hrun, htraj, hstub, hro, hrt, hflag, hwrit, hcount⟩ :=
        ih (s.setWriter sample.kind
          { client_writer := true
          , written := (s.writer sample.kind).written ++
              [requestFor s.trajectory_id sid sample] })
      refine ⟨s2,
        Event.openStream sample.kind ::
          Event.write sample.kind (requestFor s.trajectory_id sid sample) :: tr2,
        ?_, ?_, ?_, ?_, ?_, ?_, ?_, ?_⟩
      · calc runCalls env s ((sid, sample) :: rest)
            = (TrajectoryBuilderStub.AddSensorData env s sid sample).andThen
                (fun x => runCalls env x rest) := rfl
          _ = Outcome.ok s2
                ([Event.openStream sample.kind,
                  Event.write sample.kind (requestFor s.trajectory_id sid sample)]
                  ++ tr2) := by
              rw [AddSensorData_eq_addSensorDataG,
                addSensorDataG_first_open env s sid sample hclosed
                  (hopen sample.kind)]
              exact andThen_ok_ok hrun
          _ = _ := by simp
      · simpa using htraj
      · simpa using hstub
      · simpa using hro
      · simpa using hrt
      · intro k
        rw [hflag k]
        by_cases hk : k = sample.kind
        · subst hk; simp
        · rw [writer_setWriter_other s sample.kind k _ hk]
          have hk2 : ¬ (sample.kind = k) := fun h => hk h.symm
          simp [List.any_cons, hk2]
      · intro k
        rw [hwrit k]
        by_cases hk : k = sample.kind
        · subst hk
          simp [List.filter_cons, List.append_assoc]
        · rw [writer_setWriter_other s sample.kind k _ hk]
          have hk2 : ¬ (sample.kind = k) := fun h => hk h.symm
          simp [List.filter_cons, hk2]
      · intro k
        rw [countOcc_cons, countOcc_cons, hcount k]
        by_cases hk : k = sample.kind
        · subst hk; simp [hclosed]
        · have hk2 : ¬ (sample.kind = k) := fun h => hk h.symm
          rw [writer_setWriter_other s sample.kind k _ hk, List.any_cons,
            show decide ((sid, sample).2.kind = k) = false from decide_eq_false hk2,
            Bool.false_or]
          simp [hk2]

/-! ### Helper lemmas about the destructor -/

@[simp]
theorem initial_writer (trajectory_id : Int) (k : SensorKind) :
    (TrajectoryBuilderStub.initialState trajectory_id).writer k =
      { client_writer := false, written := [] } := by
  cases k <;> rfl

theorem finalizeWriter_all_ok (env : Transport) (k : SensorKind)
    (w : StreamWriter)
    (h : w.client_writer = true →
      env.writesDoneOk k = true ∧ env.finishOk k = true) :
    finalizeWriter env k w = Outcome.ok () (finalizeTrace k w) := by
  cases hw : w.client_writer with
  | false => simp [finalizeWriter, finalizeTrace, hw]
  | true =>
    obtain ⟨h1, h2⟩ := h hw
    simp [finalizeWriter, finalizeTrace, hw, h1, h2]

theorem finalizeWriter_ok_inv (env : Transport) (k : SensorKind)
    (w : StreamWriter) {u : Unit} {tr : List Event}
    (h : finalizeWriter env k w = Outcome.ok u tr)
    (hw : w.client_writer = true) :
    env.writesDoneOk k = true ∧ env.finishOk k = true := by
  cases h1 : env.writesDoneOk k with
  | false => simp [finalizeWriter, hw, h1] at h
  | true =>
    cases h2 : env.finishOk k with
    | false => simp [finalizeWriter, hw, h1, h2] at h
    | true => exact ⟨rfl, rfl⟩

theorem finalizeWriter_no_join (env : Transport) (k : SensorKind)
    (w : StreamWriter) :
    countOcc (finalizeWriter env k w).trace Event.joinThread = 0 := by
  cases hw : w.client_writer with
  | false => simp [finalizeWriter, hw, Outcome.trace]
  | true =>
    cases h1 : env.writesDoneOk k with
    | false => simp [finalizeWriter, hw, h1, Outcome.trace]
    | true =>
      cases h2 : env.finishOk k with
      | false => simp [finalizeWriter, hw, h1, h2, Outcome.trace]
      | true => simp [finalizeWriter, hw, h1, h2, Outcome.trace]

theorem trace_andThen_count_zero {α β : Type} (o : Outcome α)
    (f : α → Outcome β) (e : Event) (h1 : countOcc o.trace e = 0)
    (h2 : ∀ a, countOcc (f a).trace e = 0) :
    countOcc ((o.andThen f)).trace e = 0 := by
  cases o with
  | fatal tr => simpa [Outcome.andThen, Outcome.trace] using h1
  | ok a tr =>
    rw [trace_andThen_ok, countOcc_append]
    simp only [Outcome.trace] at h1
    rw [h1, h2 a]

theorem finalizeAllWriters_no_join (env : Transport) (s : StubState) :
    countOcc (finalizeAllWriters env s).trace Event.joinThread = 0 := by
  apply trace_andThen_count_zero
  · exact finalizeWriter_no_join env SensorKind.rangefinder s.rangefinder_writer
  · intro a
    apply trace_andThen_count_zero
    · exact finalizeWriter_no_join env SensorKind.imu s.imu_writer
    · intro b
      apply trace_andThen_count_zero
      · exact finalizeWriter_no_join env SensorKind.odometry s.odometry_writer
      · intro c
        exact finalizeWriter_no_join env SensorKind.fixedFrame
          s.fixed_frame_writer

theorem finalizeAllWriters_ok (env : Transport) (s : StubState)
    (h : ∀ k, (s.writer k).client_writer = true →
      env.writesDoneOk k = true ∧ env.finishOk k = true) :
    finalizeAllWriters env s =
      Outcome.ok ()
        (finalizeTrace SensorKind.rangefinder s.rangefinder_writer ++
          (finalizeTrace SensorKind.imu s.imu_writer ++
            (finalizeTrace SensorKind.odometry s.odometry_writer ++
              finalizeTrace SensorKind.fixedFrame s.fixed_frame_writer))) := by
  have hr := finalizeWriter_all_ok env SensorKind.rangefinder
    s.rangefinder_writer (h SensorKind.rangefinder)
  have hi := finalizeWriter_all_ok env SensorKind.imu
    s.imu_writer (h SensorKind.imu)
  have ho := finalizeWriter_all_ok env SensorKind.odometry
    s.odometry_writer (h SensorKind.odometry)
  have hf := finalizeWriter_all_ok env SensorKind.fixedFrame
    s.fixed_frame_writer (h SensorKind.fixedFrame)
  show (finalizeWriter env SensorKind.rangefinder s.rangefinder_writer).andThen
      _ = _
  rw [hr, hi, ho, hf]
  simp [Outcome.andThen]

theorem finalizeAllWriters_fatal (env : Transport) (s : StubState)
    (h : ∃ k, (s.writer k).client_writer = true ∧
      (env.writesDoneOk k = false ∨ env.finishOk k = false)) :
    ∃ tr, finalizeAllWriters env s = Outcome.fatal tr := by
  cases hr : finalizeWriter env SensorKind.rangefinder s.rangefinder_writer with
  | fatal trR =>
    refine ⟨trR, ?_⟩
    show (finalizeWriter env SensorKind.rangefinder s.rangefinder_writer).andThen
        _ = _
    rw [hr]
    rfl
  | ok uR trR =>
    cases hi : finalizeWriter env SensorKind.imu s.imu_writer with
    | fatal trI =>
      refine ⟨trR ++ trI, ?_⟩
      show (finalizeWriter env SensorKind.rangefinder
          s.rangefinder_writer).andThen _ = _
      rw [hr]
      exact andThen_ok_fatal (by rw [hi]; rfl)
    | ok uI trI =>
      cases ho : finalizeWriter env SensorKind.odometry s.odometry_writer with
      | fatal trO =>
        refine ⟨trR ++ (trI ++ trO), ?_⟩
        show (finalizeWriter env SensorKind.rangefinder
            s.rangefinder_writer).andThen _ = _
        rw [hr]
        exact andThen_ok_fatal (by rw [hi]; exact andThen_ok_fatal (by rw [ho]; rfl))
      | ok uO trO =>
        cases hf : finalizeWriter env SensorKind.fixedFrame
            s.fixed_frame_writer with
        | fatal trF =>
          refine ⟨trR ++ (trI ++ (trO ++ trF)), ?_⟩
          show (finalizeWriter env SensorKind.rangefinder
              s.rangefinder_writer).andThen _ = _
          rw [hr]
          exact andThen_ok_fatal (by
            rw [hi]
            exact andThen_ok_fatal (by
              rw [ho]
              exact andThen_ok_fatal (by rw [hf])))
        | ok uF trF =>
          obtain ⟨k, hk, hfail⟩ := h
          exfalso
          cases k with
          | rangefinder =>
            obtain ⟨h1, h2⟩ := finalizeWriter_ok_inv env SensorKind.rangefinder
              s.rangefinder_writer hr hk
            rcases hfail with hx | hx
            · simp [h1] at hx
            · simp [h2] at hx
          | imu =>
            obtain ⟨h1, h2⟩ := finalizeWriter_ok_inv env SensorKind.imu
              s.imu_writer hi hk
            rcases hfail with hx | hx
            · simp [h1] at hx
            · simp [h2] at hx
          | odometry =>
            obtain ⟨h1, h2⟩ := finalizeWriter_ok_inv env SensorKind.odometry
              s.odometry_writer ho hk
            rcases hfail with hx | hx
            · simp [h1] at hx
            · simp [h2] at hx
          | fixedFrame =>
            obtain ⟨h1, h2⟩ := finalizeWriter_ok_inv env SensorKind.fixedFrame
              s.fixed_frame_writer hf hk
            rcases hfail with hx | hx
            · simp [h1] at hx
            · simp [h2] at hx

theorem countOcc_finalizeTrace_writesDone (j k : SensorKind)
    (w : StreamWriter) :
    countOcc (finalizeTrace j w) (Event.writesDone k) =
      if j = k then (if w.client_writer then 1 else 0) else 0 := by
  cases hw : w.client_writer <;> by_cases hj : j = k <;>
    simp [finalizeTrace, hw, hj]

theorem countOcc_finalizeTrace_finish (j k : SensorKind) (w : StreamWriter) :
    countOcc (finalizeTrace j w) (Event.finish k) =
      if j = k then (if w.client_writer then 1 else 0) else 0 := by
  cases hw : w.client_writer <;> by_cases hj : j = k <;>
    simp [finalizeTrace, hw, hj]

theorem countOcc_joinTrace (b : Bool) (e : Event) (he : ¬ e = Event.joinThread) :
    countOcc (if b then [Event.joinThread] else []) e = 0 := by
  have he2 : ¬ (Event.joinThread = e) := fun hx => he hx.symm
  cases b <;> simp [he2]

/-! ### Helper lemma about the reader loop -/

theorem RunLocalSlamResultReader_eq (stream : InboundStream) :
    RunLocalSlamResultReader stream =
      (stream.messages.map fun response =>
        ReaderEvent.callbackInvoked (decodeResponse response)) ++
        [ReaderEvent.finishInbound stream.finish_ok] := by
  unfold RunLocalSlamResultReader
  congr 1
  induction stream.messages with
  | nil => rfl
  | cons m rest ih => simp [readLoop, decodeResponse, ih]

/-! ### The claims -/

/-- C1: for every adapter instance and every sensor kind, the outbound stream
handle for that kind is opened exactly once, on the first `AddSensorData` call
of that kind, and every later call of the same kind reuses the already-open
handle without opening a new stream.  Formally, over any call sequence from a
fresh adapter: the trace holds exactly one `openStream k` when some call of
kind `k` occurs and none otherwise; afterwards the handle of kind `k` is open
exactly when kind `k` was used; and along any prefix with no call of kind `k`,
no `openStream k` has happened yet — so the one open falls on the first call
of kind `k`. -/
theorem addSensorData_opens_stream_exactly_once
    (env : Transport) (hopen : ∀ k, env.openOk k = true) (trajectory_id : Int)
    (cs : List (String × SensorSample)) :
    ∃ s2 tr,
      runCalls env (TrajectoryBuilderStub.initialState trajectory_id) cs =
        Outcome.ok s2 tr ∧
      (∀ k, countOcc tr (Event.openStream k) =
        if cs.any (fun c => decide (c.2.kind = k)) then 1 else 0) ∧
      (∀ k, (s2.writer k).client_writer =
        cs.any (fun c => decide (c.2.kind = k))) ∧
      (∀ (k : SensorKind) (cs1 cs2 : List (String × SensorSample)),
        cs = cs1 ++ cs2 → (∀ c ∈ cs1, c.2.kind ≠ k) →
        ∃ s1 tr1,
          runCalls env (TrajectoryBuilderStub.initialState trajectory_id) cs1 =
            Outcome.ok s1 tr1 ∧
          countOcc tr1 (Event.openStream k) = 0) := by
  obtain ⟨s2, tr, hrun, _, _, _, _, hflag, _, hcount⟩ :=
    runCalls_ok env hopen cs (TrajectoryBuilderStub.initialState trajectory_id)
  refine ⟨s2, tr, hrun, ?_, ?_, ?_⟩
  · intro k
    simpa using hcount k
  · intro k
    simpa using hflag k
  · intro k cs1 cs2 hsplit hnone
    obtain ⟨s1, tr1, hrun1, _, _, _, _, _, _, hcount1⟩ :=
      runCalls_ok env hopen cs1 (TrajectoryBuilderStub.initialState trajectory_id)
    refine ⟨s1, tr1, hrun1, ?_⟩
    have hany : cs1.any (fun c => decide (c.2.kind = k)) = false := by
      rw [List.any_eq_false]
      intro c hc
      simpa using hnone c hc
    simpa [hany] using hcount1 k

/-- Witness for C1 at a concrete transport, trajectory id and call list. -/
theorem addSensorData_opens_stream_exactly_once_witness :
    (∀ k, envAllOk.openOk k = true) ∧
    (∃ s2 tr,
      runCalls envAllOk (TrajectoryBuilderStub.initialState 7) demoCalls =
        Outcome.ok s2 tr ∧
      (∀ k, countOcc tr (Event.openStream k) =
        if demoCalls.any (fun c => decide (c.2.kind = k)) then 1 else 0) ∧
      (∀ k, (s2.writer k).client_writer =
        demoCalls.any (fun c => decide (c.2.kind = k))) ∧
      (∀ (k : SensorKind) (cs1 cs2 : List (String × SensorSample)),
        demoCalls = cs1 ++ cs2 → (∀ c ∈ cs1, c.2.kind ≠ k) →
        ∃ s1 tr1,
          runCalls envAllOk (TrajectoryBuilderStub.initialState 7) cs1 =
            Outcome.ok s1 tr1 ∧
          countOcc tr1 (Event.openStream k) = 0)) :=
  ⟨fun _ => rfl,
   addSensorData_opens_stream_exactly_once envAllOk (fun _ => rfl) 7 demoCalls⟩

/-- C2: for every sequence of `AddSensorData` calls of a single kind (stated
for every kind at once), exactly one message per call of that kind is written
onto that kind's stream, in call order, and each message consists of
`SensorMetadata` with the caller-supplied sensor id of that call and the
trajectory id fixed at construction, together with the encoded sample. -/
theorem addSensorData_writes_one_tagged_message_per_call
    (env : Transport) (hopen : ∀ k, env.openOk k = true) (trajectory_id : Int)
    (cs : List (String × SensorSample)) :
    ∃ s2 tr,
      runCalls env (TrajectoryBuilderStub.initialState trajectory_id) cs =
        Outcome.ok s2 tr ∧
      ∀ k, (s2.writer k).written =
        (cs.filter (fun c => decide (c.2.kind = k))).map
          (fun c =>
            { sensor_metadata :=
                { sensor_id := c.1, trajectory_id := trajectory_id }
            , payload := sensorToProto c.2 }) := by
  obtain ⟨s2, tr, hrun, _, _, _, _, _, hwrit, _⟩ :=
    runCalls_ok env hopen cs (TrajectoryBuilderStub.initialState trajectory_id)
  refine ⟨s2, tr, hrun, ?_⟩
  intro k
  simpa [requestFor] using hwrit k

/-- Witness for C2 at a concrete transport, trajectory id and call list. -/
theorem addSensorData_writes_one_tagged_message_per_call_witness :
    (∀ k, envAllOk.openOk k = true) ∧
    (∃ s2 tr,
      runCalls envAllOk (TrajectoryBuilderStub.initialState 7) demoCalls =
        Outcome.ok s2 tr ∧
      ∀ k, (s2.writer k).written =
        (demoCalls.filter (fun c => decide (c.2.kind = k))).map
          (fun c =>
            { sensor_metadata := { sensor_id := c.1, trajectory_id := 7 }
            , payload := sensorToProto c.2 })) :=
  ⟨fun _ => rfl,
   addSensorData_writes_one_tagged_message_per_call envAllOk (fun _ => rfl) 7
     demoCalls⟩

/-- C3: during destruction, if a reader task was started then it is joined
strictly before any outbound stream handle is finalized: the destructor's
operation trace starts with the join, and no further join occurs, so every
`writesDone`/`finish` operation in the trace comes after the join returned. -/
theorem destruct_joins_reader_before_any_finalize
    (env : Transport) (s : StubState) (h : s.reader_thread = true) :
    ∃ tl, (TrajectoryBuilderStub.destruct env s).trace =
        Event.joinThread :: tl ∧
      countOcc tl Event.joinThread = 0 := by
  refine ⟨(finalizeAllWriters env s).trace, ?_,
    finalizeAllWriters_no_join env s⟩
  calc (TrajectoryBuilderStub.destruct env s).trace
      = (if s.reader_thread then [Event.joinThread] else []) ++
          (finalizeAllWriters env s).trace := trace_andThen_ok _ _ _
    _ = Event.joinThread :: (finalizeAllWriters env s).trace := by
        rw [h]; rfl

/-- Witness for C3 at a concrete transport and state with a spawned reader. -/
theorem destruct_joins_reader_before_any_finalize_witness :
    demoOpenState.reader_thread = true ∧
    (∃ tl, (TrajectoryBuilderStub.destruct envAllOk demoOpenState).trace =
        Event.joinThread :: tl ∧
      countOcc tl Event.joinThread = 0) :=
  ⟨rfl, destruct_joins_reader_before_any_finalize envAllOk demoOpenState rfl⟩

/-- C4: during destruction, each open outbound handle gets exactly one
end-of-writes signal and one completion acknowledgment wait (closed handles
get none), and if any open handle's acknowledgment is not a success the
destructor ends in a fatal process-terminating assertion instead of returning
normally. -/
theorem destruct_finalizes_open_handles_else_fatal (env : Transport)
    (s : StubState) :
    ((∀ k, (s.writer k).client_writer = true →
        env.writesDoneOk k = true ∧ env.finishOk k = true) →
      ∃ tr, TrajectoryBuilderStub.destruct env s = Outcome.ok () tr ∧
        (∀ k, countOcc tr (Event.writesDone k) =
          if (s.writer k).client_writer then 1 else 0) ∧
        (∀ k, countOcc tr (Event.finish k) =
          if (s.writer k).client_writer then 1 else 0)) ∧
    ((∃ k, (s.writer k).client_writer = true ∧
        (env.writesDoneOk k = false ∨ env.finishOk k = false)) →
      ∃ tr, TrajectoryBuilderStub.destruct env s = Outcome.fatal tr) := by
  constructor
  · intro h
    have hall := finalizeAllWriters_ok env s h
    refine ⟨(if s.reader_thread then [Event.joinThread] else []) ++
      (finalizeTrace SensorKind.rangefinder s.rangefinder_writer ++
        (finalizeTrace SensorKind.imu s.imu_writer ++
          (finalizeTrace SensorKind.odometry s.odometry_writer ++
            finalizeTrace SensorKind.fixedFrame s.fixed_frame_writer))),
      andThen_ok_ok hall, ?_, ?_⟩
    · intro k
      rw [countOcc_append, countOcc_append, countOcc_append, countOcc_append,
        countOcc_joinTrace s.reader_thread (Event.writesDone k) (by simp),
        countOcc_finalizeTrace_writesDone, countOcc_finalizeTrace_writesDone,
        countOcc_finalizeTrace_writesDone, countOcc_finalizeTrace_writesDone]
      cases k <;> simp [StubState.writer]
    · intro k
      rw [countOcc_append, countOcc_append, countOcc_append, countOcc_append,
        countOcc_joinTrace s.reader_thread (Event.finish k) (by simp),
        countOcc_finalizeTrace_finish, countOcc_finalizeTrace_finish,
        countOcc_finalizeTrace_finish, countOcc_finalizeTrace_finish]
      cases k <;> simp [StubState.writer]
  · intro h
    obtain ⟨trX, hX⟩ := finalizeAllWriters_fatal env s h
    exact ⟨(if s.reader_thread then [Event.joinThread] else []) ++ trX,
      andThen_ok_fatal hX⟩

/-- Witness for C4: a state with an open imu handle destructed under an
all-success transport, and the same state under a transport whose `Finish`
acknowledgment fails. -/
theorem destruct_finalizes_open_handles_else_fatal_witness :
    (∃ tr, TrajectoryBuilderStub.destruct envAllOk demoOpenState =
        Outcome.ok () tr ∧
      (∀ k, countOcc tr (Event.writesDone k) =
        if (demoOpenState.writer k).client_writer then 1 else 0) ∧
      (∀ k, countOcc tr (Event.finish k) =
        if (demoOpenState.writer k).client_writer then 1 else 0)) ∧
    (∃ tr, TrajectoryBuilderStub.destruct envFinishFails demoOpenState =
      Outcome.fatal tr) :=
  ⟨(destruct_finalizes_open_handles_else_fatal envAllOk demoOpenState).1
      (fun _ _ => ⟨rfl, rfl⟩),
   (destruct_finalizes_open_handles_else_fatal envFinishFails demoOpenState).2
      ⟨SensorKind.imu, rfl, Or.inr rfl⟩⟩

/-- C5: for every inbound message read before the stream ends, the callback is
invoked exactly once, in arrival order, with the decoded fields — trajectory
id, timestamp, local pose, range data, and a node identifier present exactly
when the message carries one — and after the stream ends the reader terminates
(the final `Finish` is the last action) with no further invocations. -/
theorem reader_invokes_callback_once_per_message_in_order
    (messages : List ReceiveLocalSlamResultsResponse) (ending : StreamEnd)
    (finish_ok : Bool) :
    RunLocalSlamResultReader
        { messages := messages, ending := ending, finish_ok := finish_ok } =
      (messages.map fun response =>
        ReaderEvent.callbackInvoked (decodeResponse response)) ++
        [ReaderEvent.finishInbound finish_ok] ∧
    (∀ response, decodeResponse response =
      { trajectory_id := response.trajectory_id
      , time := FromUniversal response.timestamp
      , local_pose := ToRigid3 response.local_pose
      , range_data := RangeDataFromProto response.range_data
      , node_id := response.node_id.map
          (fun n => { trajectory_id := n.trajectory_id
                    , node_index := n.node_index }) }) := by
  constructor
  · exact RunLocalSlamResultReader_eq _
  · intro response
    cases hn : response.node_id <;> simp [decodeResponse, hn]

/-- C7: the reader loop treats any end of the inbound stream — clean close or
transport fault mid-read — identically; the loop exits without raising any
error, then the inbound session is finalized exactly once as the last action,
and a non-success finalize status changes nothing about the callback
deliveries. -/
theorem reader_treats_stream_end_uniformly
    (messages : List ReceiveLocalSlamResultsResponse) (e1 e2 : StreamEnd)
    (f1 f2 : Bool) :
    RunLocalSlamResultReader
        { messages := messages, ending := e1, finish_ok := f1 } =
      RunLocalSlamResultReader
        { messages := messages, ending := e2, finish_ok := f1 } ∧
    (RunLocalSlamResultReader
        { messages := messages, ending := e1, finish_ok := f1 }).filter
        isCallbackEvent =
      (RunLocalSlamResultReader
        { messages := messages, ending := e2, finish_ok := f2 }).filter
        isCallbackEvent ∧
    (RunLocalSlamResultReader
        { messages := messages, ending := e1, finish_ok := f1 }).countP
        isFinishEvent = 1 ∧
    ∃ pre,
      RunLocalSlamResultReader
          { messages := messages, ending := e1, finish_ok := f1 } =
        pre ++ [ReaderEvent.finishInbound f1] ∧
      ∀ ev ∈ pre, isCallbackEvent ev = true := by
  refine ⟨rfl, ?_, ?_, ?_⟩
  · rw [RunLocalSlamResultReader_eq, RunLocalSlamResultReader_eq]
    simp [List.filter_append, isCallbackEvent, Function.comp]
  · rw [RunLocalSlamResultReader_eq]
    simp [List.countP_append, isFinishEvent, Function.comp]
  · refine ⟨_, RunLocalSlamResultReader_eq _, ?_⟩
    intro ev hev
    rw [List.mem_map] at hev
    obtain ⟨r, _, rfl⟩ := hev
    rfl

/-- C6: the inbound result session is opened and the background reader task is
started if and only if a result callback is supplied at construction, and in
that case both happen inside the constructor (their events are the
constructor's own trace); with no callback, destruction performs no join and
spawns nothing. -/
theorem construct_sets_up_reader_iff_callback (env : Transport)
    (h : env.stubOk = true) (trajectory_id : Int) (has_callback : Bool) :
    ∃ s tr,
      TrajectoryBuilderStub.construct env trajectory_id has_callback =
        Outcome.ok s tr ∧
      s.reader_open = has_callback ∧
      s.reader_thread = has_callback ∧
      tr = (if has_callback then
              [Event.openResultStream, Event.spawnReaderThread]
            else []) ∧
      (has_callback = false → ∀ env2 : Transport,
        countOcc (TrajectoryBuilderStub.destruct env2 s).trace
            Event.joinThread = 0 ∧
        countOcc (TrajectoryBuilderStub.destruct env2 s).trace
            Event.spawnReaderThread = 0) := by
  cases has_callback with
  | false =>
    refine ⟨TrajectoryBuilderStub.initialState trajectory_id, [], ?_, rfl, rfl,
      rfl, ?_⟩
    · simp [TrajectoryBuilderStub.construct, h]
    · intro _ env2
      exact ⟨rfl, rfl⟩
  | true =>
    refine ⟨{ TrajectoryBuilderStub.initialState trajectory_id with
        reader_open := true, reader_thread := true },
      [Event.openResultStream, Event.spawnReaderThread], ?_, rfl, rfl, rfl, ?_⟩
    · simp [TrajectoryBuilderStub.construct, h]
    · intro hfalse
      exact absurd hfalse (by simp)

/-- Witness for C6 at a concrete transport, with and without a callback. -/
theorem construct_sets_up_reader_iff_callback_witness :
    envAllOk.stubOk = true ∧
    (∃ s tr,
      TrajectoryBuilderStub.construct envAllOk 3 true = Outcome.ok s tr ∧
      s.reader_open = true ∧
      s.reader_thread = true ∧
      tr = (if true then [Event.openResultStream, Event.spawnReaderThread]
            else []) ∧
      (true = false → ∀ env2 : Transport,
        countOcc (TrajectoryBuilderStub.destruct env2 s).trace
            Event.joinThread = 0 ∧
        countOcc (TrajectoryBuilderStub.destruct env2 s).trace
            Event.spawnReaderThread = 0)) :=
  ⟨rfl, construct_sets_up_reader_iff_callback envAllOk rfl 3 true⟩

/-- C8: if creating the service stub at construction, or opening an outbound
stream on first use of a kind, yields no usable handle, the adapter hits a
fatal assertion; and whenever construction or a call returns normally, the
stub (resp. the used kind's stream handle) is non-null. -/
theorem fatal_on_unusable_stub_or_stream_handle (env : Transport) :
    (env.stubOk = false → ∀ (trajectory_id : Int) (has_callback : Bool),
      TrajectoryBuilderStub.construct env trajectory_id has_callback =
        Outcome.fatal []) ∧
    (∀ (s : StubState) (sensor_id : String) (sample : SensorSample),
      (s.writer sample.kind).client_writer = false →
      env.openOk sample.kind = false →
      TrajectoryBuilderStub.AddSensorData env s sensor_id sample =
        Outcome.fatal [Event.openStream sample.kind]) ∧
    (∀ (trajectory_id : Int) (has_callback : Bool) (s : StubState)
        (tr : List Event),
      TrajectoryBuilderStub.construct env trajectory_id has_callback =
        Outcome.ok s tr → s.stub = true) ∧
    (∀ (s : StubState) (sensor_id : String) (sample : SensorSample)
        (s2 : StubState) (tr : List Event),
      TrajectoryBuilderStub.AddSensorData env s sensor_id sample =
        Outcome.ok s2 tr → (s2.writer sample.kind).client_writer = true) := by
  refine ⟨?_, ?_, ?_, ?_⟩
  · intro h trajectory_id has_callback
    simp [TrajectoryBuilderStub.construct, h]
  · intro s sensor_id sample hclosed hopen
    rw [AddSensorData_eq_addSensorDataG]
    exact addSensorDataG_open_failed env s sensor_id sample hclosed hopen
  · intro trajectory_id has_callback s tr h
    cases hs : env.stubOk with
    | false => simp [TrajectoryBuilderStub.construct, hs] at h
    | true =>
      cases has_callback with
      | false =>
        simp [TrajectoryBuilderStub.construct, hs] at h
        obtain ⟨rfl, rfl⟩ := h
        rfl
      | true =>
        simp [TrajectoryBuilderStub.construct, hs] at h
        obtain ⟨rfl, rfl⟩ := h
        rfl
  · intro s sensor_id sample s2 tr h
    rw [AddSensorData_eq_addSensorDataG] at h
    by_cases hw : (s.writer sample.kind).client_writer = true
    · rw [addSensorDataG_already_open env s sensor_id sample hw] at h
      simp only [Outcome.ok.injEq] at h
      obtain ⟨rfl, rfl⟩ := h
      simpa using hw
    · have hclosed : (s.writer sample.kind).client_writer = false := by
        simpa using hw
      cases ho : env.openOk sample.kind with
      | false =>
        rw [addSensorDataG_open_failed env s sensor_id sample hclosed ho] at h
        simp at h
      | true =>
        rw [addSensorDataG_first_open env s sensor_id sample hclosed ho] at h
        simp only [Outcome.ok.injEq] at h
        obtain ⟨rfl, rfl⟩ := h
        simp

/-- Witness for C8: the four parts at concrete transports and inputs. -/
theorem fatal_on_unusable_stub_or_stream_handle_witness :
    (TrajectoryBuilderStub.construct envNoStub 1 true = Outcome.fatal []) ∧
    (TrajectoryBuilderStub.AddSensorData envOpenFails
        (TrajectoryBuilderStub.initialState 1) "odom"
        (SensorSample.odometry { rep := 4 }) =
      Outcome.fatal [Event.openStream SensorKind.odometry]) ∧
    ((TrajectoryBuilderStub.initialState 1).stub = true) ∧
    ((demoAddResult.writer (SensorSample.imu { rep := 3 }).kind).client_writer =
      true) :=
  ⟨(fatal_on_unusable_stub_or_stream_handle envNoStub).1 rfl 1 true,
   (fatal_on_unusable_stub_or_stream_handle envOpenFails).2.1
     (TrajectoryBuilderStub.initialState 1) "odom"
     (SensorSample.odometry { rep := 4 }) rfl rfl,
   (fatal_on_unusable_stub_or_stream_handle envAllOk).2.2.1 1 false
     (TrajectoryBuilderStub.initialState 1) [] rfl,
   (fatal_on_unusable_stub_or_stream_handle envAllOk).2.2.2
     (TrajectoryBuilderStub.initialState 5) "imu0" (SensorSample.imu { rep := 3 })
     demoAddResult demoAddTrace rfl⟩

/-- C9: destroying an adapter on which no `AddSensorData` call was ever made
and with no result callback performs no stream operations at all — the
destructor's trace is empty (no join, no end-of-writes, no finalize) — and
returns cleanly. -/
theorem destroy_fresh_adapter_performs_no_stream_operations
    (env env2 : Transport) (h : env.stubOk = true) (trajectory_id : Int) :
    ∃ s, TrajectoryBuilderStub.construct env trajectory_id false =
        Outcome.ok s [] ∧
      TrajectoryBuilderStub.destruct env2 s = Outcome.ok () [] := by
  refine ⟨TrajectoryBuilderStub.initialState trajectory_id, ?_, rfl⟩
  simp [TrajectoryBuilderStub.construct, h]

/-- Witness for C9 at concrete transports (destruction observed under a
transport whose acknowledgments would fail, showing none is consulted). -/
theorem destroy_fresh_adapter_performs_no_stream_operations_witness :
    envAllOk.stubOk = true ∧
    (∃ s, TrajectoryBuilderStub.construct envAllOk 2 false = Outcome.ok s [] ∧
      TrajectoryBuilderStub.destruct envFinishFails s = Outcome.ok () []) :=
  ⟨rfl, destroy_fresh_adapter_performs_no_stream_operations envAllOk
    envFinishFails rfl 2⟩

/-- C10: an `AddSensorData` call of one kind leaves the other three kinds'
stream handles entirely unchanged, leaves the trajectory identity, stub and
result-reader state unchanged, and its trace touches only the matching kind's
stream (an open of that kind or a write of that kind, nothing else). -/
theorem addSensorData_frame_other_kinds_unchanged (env : Transport)
    (s : StubState) (sensor_id : String) (sample : SensorSample)
    (s2 : StubState) (tr : List Event)
    (h : TrajectoryBuilderStub.AddSensorData env s sensor_id sample =
      Outcome.ok s2 tr) :
    (∀ j, j ≠ sample.kind → s2.writer j = s.writer j) ∧
    s2.trajectory_id = s.trajectory_id ∧
    s2.stub = s.stub ∧
    s2.reader_open = s.reader_open ∧
    s2.reader_thread = s.reader_thread ∧
    (∀ e ∈ tr, e = Event.openStream sample.kind ∨
      ∃ r, e = Event.write sample.kind r) := by
  rw [AddSensorData_eq_addSensorDataG] at h
  by_cases hw : (s.writer sample.kind).client_writer = true
  · rw [addSensorDataG_already_open env s sensor_id sample hw] at h
    simp only [Outcome.ok.injEq] at h
    obtain ⟨rfl, rfl⟩ := h
    refine ⟨?_, by simp, by simp, by simp, by simp, ?_⟩
    · intro j hj
      exact writer_setWriter_other s sample.kind j _ hj
    · intro e he
      simp only [List.mem_singleton] at he
      subst he
      exact Or.inr ⟨_, rfl⟩
  · have hclosed : (s.writer sample.kind).client_writer = false := by
      simpa using hw
    cases ho : env.openOk sample.kind with
    | false =>
      rw [addSensorDataG_open_failed env s sensor_id sample hclosed ho] at h
      simp at h
    | true =>
      rw [addSensorDataG_first_open env s sensor_id sample hclosed ho] at h
      simp only [Outcome.ok.injEq] at h
      obtain ⟨rfl, rfl⟩ := h
      refine ⟨?_, by simp, by simp, by simp, by simp, ?_⟩
      · intro j hj
        exact writer_setWriter_other s sample.kind j _ hj
      · intro e he
        simp only [List.mem_cons, List.not_mem_nil, or_false] at he
        rcases he with rfl | rfl
        · exact Or.inl rfl
        · exact Or.inr ⟨_, rfl⟩

/-- Witness for C10: one concrete imu call on a fresh adapter. -/
theorem addSensorData_frame_other_kinds_unchanged_witness :
    (TrajectoryBuilderStub.AddSensorData envAllOk
        (TrajectoryBuilderStub.initialState 5) "imu0"
        (SensorSample.imu { rep := 3 }) =
      Outcome.ok demoAddResult demoAddTrace) ∧
    ((∀ j, j ≠ (SensorSample.imu { rep := 3 }).kind →
        demoAddResult.writer j =
          (TrajectoryBuilderStub.initialState 5).writer j) ∧
      demoAddResult.trajectory_id =
        (TrajectoryBuilderStub.initialState 5).trajectory_id ∧
      demoAddResult.stub = (TrajectoryBuilderStub.initialState 5).stub ∧
      demoAddResult.reader_open =
        (TrajectoryBuilderStub.initialState 5).reader_open ∧
      demoAddResult.reader_thread =
        (TrajectoryBuilderStub.initialState 5).reader_thread ∧
      (∀ e ∈ demoAddTrace,
        e = Event.openStream (SensorSample.imu { rep := 3 }).kind ∨
        ∃ r, e = Event.write (SensorSample.imu { rep := 3 }).kind r)) :=
  ⟨rfl,
   addSensorData_frame_other_kinds_unchanged envAllOk
     (TrajectoryBuilderStub.initialState 5) "imu0" (SensorSample.imu { rep := 3 })
     demoAddResult demoAddTrace rfl⟩
